import Mathlib

/-!
Shallow embedding of `ckanext-gwexplorer` (files `ckanext/gwexplorer/actions.py`
and `ckanext/gwexplorer/plugin.py`) in Lean 4, together with theorems settling
the specification claims about the two remotely callable endpoints
(`show_dsl_metadata`, `dsl_query_data`) and the view predicate (`can_view`).

Modelling conventions:
* JSON-serializable Python values are modelled by the inductive `J`; Python
  dicts become association lists with first-match lookup (Python dicts have
  unique keys, so first-match agrees with dict lookup).
* Python exceptions are modelled by `Except Exc`; an `Exc` carries the
  exception class (`ExcKind`) and the message `str(e)`.
* Calls into the host platform and the external pygwalker library (connector
  construction, `datastore_search`, `get_datas_by_payload`, `check_access`)
  are modelled by an environment `Env` recording the outcome of each external
  call for the request being analysed.
-/

set_option autoImplicit false

/-- JSON-like values: the shapes the Python code builds and returns. -/
inductive J where
  | null : J
  | b : Bool → J
  | s : String → J
  | arr : List J → J
  | obj : List (String × J) → J

/-- First-match lookup in an association list, as Python dict lookup
(dicts have unique keys, so first-match is dict lookup). -/
def lookupKey : List (String × J) → String → Option J
  | [], _ => Option.none
  | kv :: rest, k => if kv.1 = k then some kv.2 else lookupKey rest k

/-- Key lookup on a `J` value: `some v` exactly when the value is an object
containing the key. -/
def J.getKey : J → String → Option J
  | J.obj kvs, k => lookupKey kvs k
  | _, _ => Option.none

/-- Python exception classes relevant to `actions.py`. -/
inductive ExcKind where
  | dslQueryError : ExcKind
  | databaseConnectionError : ExcKind
  | attributeError : ExcKind
  | otherError : ExcKind
deriving DecidableEq

/-- A raised Python exception: its class and its message (`str(e)`). -/
structure Exc where
  kind : ExcKind
  msg : String
deriving DecidableEq

/-- Python values that appear in a request `data_dict` in this code:
`None`, strings, booleans and JSON-object dicts. -/
inductive PyVal where
  | none : PyVal
  | str : String → PyVal
  | bool : Bool → PyVal
  | dict : List (String × J) → PyVal

/-- Python truthiness for the modelled values (`if not x`). -/
def truthy : PyVal → Bool
  | PyVal.none => false
  | PyVal.str s => !(s == "")
  | PyVal.bool b => b
  | PyVal.dict kvs => !(kvs.isEmpty)

/-- Rendering of a `PyVal` into the JSON model (used when a request value is
placed into a response envelope). -/
def pyToJ : PyVal → J
  | PyVal.none => J.null
  | PyVal.str s => J.s s
  | PyVal.bool b => J.b b
  | PyVal.dict kvs => J.obj kvs

/-- actions.py line 11: `COLUMNS_TO_EXCLUDE = ["_id", "id", "_full_text"]`. -/
def COLUMNS_TO_EXCLUDE : List String := ["_id", "id", "_full_text"]

/-- Does the second list start with the first? (character-level helper for
the Python `in` substring test). -/
def startsWithChars : List Char → List Char → Bool
  | [], _ => true
  | _ :: _, [] => false
  | a :: as, b :: bs => a == b && startsWithChars as bs

/-- Does the list contain the first list as a contiguous run? -/
def hasSubChars (needle : List Char) : List Char → Bool
  | [] => startsWithChars needle []
  | c :: rest => startsWithChars needle (c :: rest) || hasSubChars needle rest

/-- Python `needle in hay` on strings: contiguous-substring containment. -/
def strContains (hay needle : String) : Bool :=
  hasSubChars needle.toList hay.toList

/-- ASCII lower-casing of one character (the range the code's inputs use). -/
def lowerChar (c : Char) : Char :=
  if c.toNat ≥ 65 && c.toNat ≤ 90 then Char.ofNat (c.toNat + 32) else c

/-- Python `str.lower()` on the strings this code compares (ASCII). -/
def pyLower (s : String) : String := String.mk (s.toList.map lowerChar)

/-- A catalog resource as seen by `can_view` (plugin.py lines 24-33): the
fields the predicate reads. `datastore_active` may hold any stored value
(its truthiness is what matters); `url` and `format` are stored strings when
present (the code calls `.lower()` on `format`, i.e. treats it as a string). -/
structure Resource where
  datastore_active : Option PyVal
  url : Option String
  format : Option String

/-- plugin.py lines 24-33: `GwexplorerPlugin.can_view`.
`resource.get('datastore_active')` truthy, or
`'_datastore_only_resource' in resource.get('url', '')`, else the format
whitelist check on `resource.get('format', None)` when that is truthy. -/
def can_view (r : Resource) : Bool :=
  if truthy (r.datastore_active.getD PyVal.none)
      || strContains (r.url.getD "") "_datastore_only_resource" then
    true
  else
    let f := r.format.getD ""
    if f == "" then false
    else (["csv", "xls", "xlsx", "tsv"]).contains (pyLower f)

/-- Spec-side restatement of the view predicate, from the claim wording:
viewable iff datastore-backed, or the url contains the sentinel marker, or
the declared format is (case-insensitively) one of csv/xls/xlsx/tsv. -/
def canViewSpec (r : Resource) : Bool :=
  truthy (r.datastore_active.getD PyVal.none)
  || strContains (r.url.getD "") "_datastore_only_resource"
  || (["csv", "xls", "xlsx", "tsv"]).contains (pyLower (r.format.getD ""))

/-- A column record from the external parser's `raw_fields`: its `fid` plus
the other parser-supplied entries of the field dict (type/stat fields). -/
structure RawField where
  fid : String
  attrs : List (String × J)

/-- The parser object returned by `get_parser` (pygwalker): the `raw_fields`
list and the outcome of `get_datas_by_payload` for a given payload value.
Rows are dicts, modelled as association lists. -/
structure Parser where
  raw_fields : List RawField
  datasByPayload : PyVal → Except Exc (List (List (String × J)))

/-- One field record from the host's `datastore_search` result: its `id` and,
when the field carries `info` with a `label`, that label
(`field.get("info", {}).get("label", field_id)`). -/
structure DSField where
  id : String
  label : Option String

/-- Outcomes of the external calls made while serving one request:
the configured datastore read URL, the outcome of building the connector and
parser (`Connector` + `get_parser`, actions.py lines 102-110), the outcome of
the host's `datastore_search` call (actions.py lines 126-128), and the host's
`check_access("resource_show", ...)` as a function of the id value it is
given (it either returns or raises, e.g. NotAuthorized). -/
structure Env where
  readURL : String
  parser : Except Exc Parser
  dsSearchFields : Except Exc (List DSField)
  checkAccess : PyVal → Except Exc Unit

/-- actions.py lines 42-63: `DSLService._create_error_response`.
The fixed missing-field envelope
`{"detail": [{"loc": ["query", field], "msg": message, "type": "value_error.missing"}]}`. -/
def DSLService.create_error_response (field : String) (message : String) : J :=
  J.obj [("detail", J.arr [J.obj
    [("loc", J.arr [J.s "query", J.s field]),
     ("msg", J.s message),
     ("type", J.s "value_error.missing")]])]

/-- actions.py lines 84-113: `DSLService._get_table_parser`.
Inside the `try`: an empty read URL raises
`DatabaseConnectionError("Database read URL not configured")`; that raise, and
any connector/parser failure, is caught by the blanket `except` at line 111
and re-raised as `DatabaseConnectionError("Database connection failed: ...")`. -/
def DSLService.getTableParser (env : Env) : Except Exc Parser :=
  match (if env.readURL == "" then
      Except.error ⟨ExcKind.databaseConnectionError, "Database read URL not configured"⟩
    else env.parser : Except Exc Parser) with
  | Except.ok p => Except.ok p
  | Except.error e =>
      Except.error ⟨ExcKind.databaseConnectionError, "Database connection failed: " ++ e.msg⟩

/-- One step of the dict-building loop of `_get_name_title_map`
(actions.py lines 133-137): skip excluded field ids, otherwise bind the id to
its label (defaulting to the id itself). Python dict assignment overwrites,
hence the functional update. -/
def nameMapStep (m : String → Option String) (f : DSField) : String → Option String :=
  if f.id ∈ COLUMNS_TO_EXCLUDE then m
  else fun x => if x = f.id then some (f.label.getD f.id) else m x

/-- actions.py lines 115-143: `DSLService._get_name_title_map`.
On any failure of `datastore_search` the whole `try` body is abandoned and the
empty dict is returned (lines 141-143); otherwise the dict built by the loop.
The dict is modelled as its lookup function. -/
def DSLService.get_name_title_map (env : Env) : String → Option String :=
  match env.dsSearchFields with
  | Except.error _ => fun _ => Option.none
  | Except.ok fields => fields.foldl nameMapStep (fun _ => Option.none)

/-- actions.py line 164: `{**field, "name": name_title_map.get(field["fid"], field["fid"])}`.
The field dict with a `name` entry set (overriding any parser-supplied
`name`, as the dict-literal unpacking does). -/
def metaField (nameMap : String → Option String) (f : RawField) : J :=
  J.obj (((("fid", J.s f.fid) :: f.attrs).filter (fun kv => kv.1 != "name"))
    ++ [("name", J.s ((nameMap f.fid).getD f.fid))])

/-- Sort key of a schema field: its `name` entry (every field built by
`metaField` has one, a string). -/
def nameKey (f : J) : String :=
  match J.getKey f "name" with
  | some (J.s n) => n
  | _ => ""

/-- Stable insertion of a field into a name-sorted list. -/
def insertByName (f : J) : List J → List J
  | [] => [f]
  | g :: t => if nameKey f ≤ nameKey g then f :: g :: t else g :: insertByName f t

/-- actions.py line 170: `sorted(filtered_result, key=lambda x: x["name"])`,
modelled as a stable sort by the `name` entry. -/
def sortedByName : List J → List J
  | [] => []
  | f :: t => insertByName f (sortedByName t)

/-- actions.py lines 145-176: `DSLService.get_table_metadata`.
The blanket `except` at lines 174-176 turns ANY failure (in particular a
`DatabaseConnectionError` from the parser factory) into the empty list; the
label-map helper already absorbs its own failures, and nothing after it in the
`try` raises, so this function is total. -/
def DSLService.get_table_metadata (env : Env) (sort : Bool) : List J :=
  match DSLService.getTableParser env with
  | Except.error _ => []
  | Except.ok p =>
    if sort then
      sortedByName ((p.raw_fields.filter
        (fun f => !(decide (f.fid ∈ COLUMNS_TO_EXCLUDE)))).map
          (metaField (DSLService.get_name_title_map env)))
    else
      (p.raw_fields.filter
        (fun f => !(decide (f.fid ∈ COLUMNS_TO_EXCLUDE)))).map
          (metaField (DSLService.get_name_title_map env))

/-- actions.py lines 213-246: `DSLService.show_metadata`.
Falsy resource id gives the fixed missing-field envelope; otherwise the
success envelope. The `except` branch at lines 238-246 is unreachable: its
`try` body calls only `get_table_metadata` (total, see above) and builds a
dict literal, so the failure envelope with `success: false` is dead code. -/
def DSLService.show_metadata (env : Env) (resource_id : PyVal) (sort : Bool) : J :=
  if !(truthy resource_id) then DSLService.create_error_response "resourceID" "field required"
  else
    J.obj [("success", J.b true),
           ("schema", J.arr (DSLService.get_table_metadata env sort)),
           ("name", pyToJ resource_id),
           ("resource_id", pyToJ resource_id),
           ("message", J.s "")]

/-- actions.py lines 178-211: `DSLService.get_data_from_payload`.
Any failure (parser factory or `get_datas_by_payload`) is caught and
re-raised as `DSLQueryError("Query execution failed: ...")`; on success each
row is filtered of the excluded columns. The terminal
`json.loads(json.dumps(..., cls=DataFrameEncoder))` round-trip is modelled as
the identity on the filtered rows (it re-encodes values, not keys). -/
def DSLService.get_data_from_payload (env : Env) (payload : PyVal) :
    Except Exc (List (List (String × J))) :=
  match DSLService.getTableParser env with
  | Except.error e =>
      Except.error ⟨ExcKind.dslQueryError, "Query execution failed: " ++ e.msg⟩
  | Except.ok p =>
    match p.datasByPayload payload with
    | Except.error e =>
        Except.error ⟨ExcKind.dslQueryError, "Query execution failed: " ++ e.msg⟩
    | Except.ok rows =>
        Except.ok (rows.map (fun row =>
          row.filter (fun kv => !(decide (kv.1 ∈ COLUMNS_TO_EXCLUDE)))))

/-- actions.py lines 248-286: `DSLService.query_data`.
Falsy resource id, then falsy payload, give the fixed missing-field
envelopes; then the success envelope, the `DSLQueryError` envelope (message
`str(e)`) or the generic envelope (message `"Unexpected error: ..."`). -/
def DSLService.query_data (env : Env) (resource_id : PyVal) (payload : PyVal) : J :=
  if !(truthy resource_id) then DSLService.create_error_response "resourceID" "field required"
  else if !(truthy payload) then DSLService.create_error_response "payload" "payload field required"
  else
    match DSLService.get_data_from_payload env payload with
    | Except.ok rows =>
        J.obj [("success", J.b true),
               ("data", J.arr (rows.map J.obj)),
               ("message", J.s "")]
    | Except.error e =>
        if e.kind == ExcKind.dslQueryError then
          J.obj [("success", J.b false), ("data", J.null), ("message", J.s e.msg)]
        else
          J.obj [("success", J.b false), ("data", J.null),
                 ("message", J.s ("Unexpected error: " ++ e.msg))]

/-- What a call to a registered action does, seen from the caller:
return a value, abort with an HTTP status (`tk.abort`), or let an exception
propagate. -/
inductive Outcome where
  | ret : J → Outcome
  | abort : Nat → String → Outcome
  | exn : Exc → Outcome

/-- The request `data_dict` of an endpoint call: each slot is `Option.none`
when the key is absent (so `data_dict.get(key)` yields Python `None`, while
`data_dict.get("sort", "false")` yields the default `"false"`). -/
structure DataDict where
  resourceID : Option PyVal
  sort : Option PyVal
  payload : Option PyVal

/-- actions.py lines 293-317: the `show_dsl_metadata` action.
Falsy `resourceID` → `tk.abort(400, "resourceID field is required")`;
then `tk.check_access("resource_show", ...)` may raise; then
`data_dict.get("sort", "false").lower() == "true"` — calling `.lower()` on a
non-string sort value raises `AttributeError`. -/
def show_dsl_metadata (env : Env) (dd : DataDict) : Outcome :=
  if !(truthy (dd.resourceID.getD PyVal.none)) then
    Outcome.abort 400 "resourceID field is required"
  else
    match env.checkAccess (dd.resourceID.getD PyVal.none) with
    | Except.error e => Outcome.exn e
    | Except.ok _ =>
      match dd.sort.getD (PyVal.str "false") with
      | PyVal.str s =>
          Outcome.ret (DSLService.show_metadata env (dd.resourceID.getD PyVal.none)
            (pyLower s == "true"))
      | _ => Outcome.exn ⟨ExcKind.attributeError, "object has no attribute lower"⟩

/-- actions.py lines 320-340: the `dsl_query_data` action.
`check_access("resource_show", ..., {"id": resource_id})` runs first, on
whatever `data_dict.get("resourceID")` produced (possibly `None`); only then
is the service's validation reached. -/
def dsl_query_data (env : Env) (dd : DataDict) : Outcome :=
  match env.checkAccess (dd.resourceID.getD PyVal.none) with
  | Except.error e => Outcome.exn e
  | Except.ok _ =>
      Outcome.ret (DSLService.query_data env (dd.resourceID.getD PyVal.none)
        (dd.payload.getD PyVal.none))

/-! Supporting lemmas about the embedding. -/

/-- If the key never satisfies the filter predicate, it is absent after
filtering. -/
theorem lookupKey_filter_none (l : List (String × J)) (k : String)
    (pred : String × J → Bool) (h : ∀ kv : String × J, kv.1 = k → pred kv = false) :
    lookupKey (l.filter pred) k = Option.none := by
  induction l with
  | nil => rfl
  | cons kv t ih =>
    by_cases hk : kv.1 = k
    · rw [List.filter_cons, h kv hk]
      exact ih
    · rw [List.filter_cons]
      cases hp : pred kv
      · exact ih
      · simpa [lookupKey, hk] using ih

/-- Lookup passes over a block that does not contain the key. -/
theorem lookupKey_append_of_none (l₁ l₂ : List (String × J)) (k : String)
    (h : lookupKey l₁ k = Option.none) :
    lookupKey (l₁ ++ l₂) k = lookupKey l₂ k := by
  induction l₁ with
  | nil => rfl
  | cons kv t ih =>
    by_cases hk : kv.1 = k
    · simp [lookupKey, hk] at h
    · simp only [lookupKey, hk, if_false, List.cons_append] at h ⊢
      simpa [lookupKey, hk] using ih h

/-- Every schema field built by `metaField` reports its `fid`. -/
theorem getKey_metaField_fid (nameMap : String → Option String) (f : RawField) :
    J.getKey (metaField nameMap f) "fid" = some (J.s f.fid) := by
  simp [metaField, J.getKey, List.filter_cons, lookupKey]

/-- Every schema field built by `metaField` reports the resolved `name`:
the label-map entry for its `fid`, defaulting to the `fid`. -/
theorem getKey_metaField_name (nameMap : String → Option String) (f : RawField) :
    J.getKey (metaField nameMap f) "name" = some (J.s ((nameMap f.fid).getD f.fid)) := by
  have h0 : lookupKey ((("fid", J.s f.fid) :: f.attrs).filter (fun kv => kv.1 != "name"))
      "name" = Option.none :=
    lookupKey_filter_none _ _ _ (by intro kv hkv; simp [hkv])
  calc J.getKey (metaField nameMap f) "name"
      = lookupKey ((("fid", J.s f.fid) :: f.attrs).filter (fun kv => kv.1 != "name")
          ++ [("name", J.s ((nameMap f.fid).getD f.fid))]) "name" := rfl
    _ = lookupKey [("name", J.s ((nameMap f.fid).getD f.fid))] "name" :=
        lookupKey_append_of_none _ _ _ h0
    _ = some (J.s ((nameMap f.fid).getD f.fid)) := by simp [lookupKey]

/-- Membership after a stable insert. -/
theorem mem_insertByName (g f : J) (l : List J) (h : g ∈ insertByName f l) :
    g = f ∨ g ∈ l := by
  induction l with
  | nil => simpa [insertByName] using h
  | cons x t ih =>
    by_cases hle : nameKey f ≤ nameKey x
    · simpa [insertByName, hle] using h
    · simp only [insertByName, hle, if_false, List.mem_cons] at h
      rcases h with h | h
      · exact Or.inr (by simp [h])
      · rcases ih h with h' | h'
        · exact Or.inl h'
        · exact Or.inr (by simp [h'])

/-- Sorting by name does not add fields. -/
theorem mem_sortedByName (g : J) (l : List J) (h : g ∈ sortedByName l) : g ∈ l := by
  induction l with
  | nil => simp [sortedByName] at h
  | cons x t ih =>
    rcases mem_insertByName g x (sortedByName t) h with h' | h'
    · simp [h']
    · exact List.mem_cons_of_mem _ (ih h')

/-- A value is returned by the metadata action only past the abort, the
access check and the string-`sort` parse, and it is a `show_metadata`
envelope. -/
theorem show_dsl_metadata_ret (env : Env) (dd : DataDict) (j : J)
    (h : show_dsl_metadata env dd = Outcome.ret j) :
    truthy (dd.resourceID.getD PyVal.none) = true ∧
      ∃ b : Bool, j = DSLService.show_metadata env (dd.resourceID.getD PyVal.none) b := by
  unfold show_dsl_metadata at h
  split at h
  · exact Outcome.noConfusion h
  · rename_i hcond
    split at h
    · exact Outcome.noConfusion h
    · split at h
      · rename_i s _
        refine ⟨by simpa using hcond, pyLower s == "true", ?_⟩
        exact (Outcome.ret.inj h).symm
      · exact Outcome.noConfusion h

/-- A value is returned by the query action only when the access check
passes, and it is a `query_data` envelope. -/
theorem dsl_query_data_ret (env : Env) (dd : DataDict) (j : J)
    (h : dsl_query_data env dd = Outcome.ret j) :
    env.checkAccess (dd.resourceID.getD PyVal.none) = Except.ok () ∧
      j = DSLService.query_data env (dd.resourceID.getD PyVal.none)
        (dd.payload.getD PyVal.none) := by
  unfold dsl_query_data at h
  split at h
  · exact Outcome.noConfusion h
  · rename_i u heq
    cases u
    exact ⟨heq, (Outcome.ret.inj h).symm⟩

/-- Every field of a computed schema comes from a non-excluded raw field,
renamed through the label map. -/
theorem mem_get_table_metadata (env : Env) (sort : Bool) (f : J)
    (h : f ∈ DSLService.get_table_metadata env sort) :
    ∃ rf : RawField, f = metaField (DSLService.get_name_title_map env) rf ∧
      rf.fid ∉ COLUMNS_TO_EXCLUDE := by
  unfold DSLService.get_table_metadata at h
  split at h
  · simp at h
  · rename_i p heq
    have hmem : f ∈ (p.raw_fields.filter
        (fun g => !(decide (g.fid ∈ COLUMNS_TO_EXCLUDE)))).map
          (metaField (DSLService.get_name_title_map env)) := by
      split at h
      · exact mem_sortedByName f _ h
      · exact h
    rcases List.mem_map.mp hmem with ⟨rf, hrf, hfe⟩
    refine ⟨rf, hfe.symm, ?_⟩
    simpa using (List.mem_filter.mp hrf).2

/-- Every failure of `get_data_from_payload` is a `DSLQueryError`
(actions.py line 211 re-wraps every caught exception). -/
theorem get_data_from_payload_error_kind (env : Env) (p : PyVal) (e : Exc)
    (h : DSLService.get_data_from_payload env p = Except.error e) :
    e.kind = ExcKind.dslQueryError := by
  unfold DSLService.get_data_from_payload at h
  split at h
  · cases Except.error.inj h
    rfl
  · split at h
    · cases Except.error.inj h
      rfl
    · exact Except.noConfusion h

/-- With a failing `datastore_search`, the label map is empty. -/
theorem get_name_title_map_error (env : Env) (e : Exc)
    (h : env.dsSearchFields = Except.error e) :
    ∀ x, DSLService.get_name_title_map env x = Option.none := by
  intro x
  unfold DSLService.get_name_title_map
  rw [h]

/-- The label-map fold leaves keys it never binds untouched. -/
theorem nameMap_foldl_not_mem (fs : List DSField) (m : String → Option String) (x : String)
    (hx : x ∉ fs.map DSField.id) : (fs.foldl nameMapStep m) x = m x := by
  induction fs generalizing m with
  | nil => rfl
  | cons f t ih =>
    have hx1 : x ≠ f.id := by
      intro he
      exact hx (by simp [he])
    have hx2 : x ∉ t.map DSField.id := fun hm => hx (by simp [hm])
    rw [List.foldl_cons, ih _ hx2]
    unfold nameMapStep
    split
    · rfl
    · simp [hx1]

/-- With duplicate-free field ids, the label map binds each non-excluded id
to its label, defaulting to the id. -/
theorem nameMap_foldl_mem (fs : List DSField) (m : String → Option String) (f : DSField)
    (hnd : (fs.map DSField.id).Nodup) (hmem : f ∈ fs) (hex : f.id ∉ COLUMNS_TO_EXCLUDE) :
    (fs.foldl nameMapStep m) f.id = some (f.label.getD f.id) := by
  induction fs generalizing m with
  | nil => cases hmem
  | cons g t ih =>
    rw [List.foldl_cons]
    have hnd' : g.id ∉ t.map DSField.id ∧ (t.map DSField.id).Nodup := by
      rw [List.map_cons] at hnd
      exact List.nodup_cons.mp hnd
    rcases List.mem_cons.mp hmem with he | ht
    · subst he
      rw [nameMap_foldl_not_mem t _ _ hnd'.1]
      unfold nameMapStep
      rw [if_neg hex]
      simp
    · exact ih (nameMapStep m g) hnd'.2 ht

/-- With a truthy string resource id but a failing parser factory, the
`show_metadata` service call still builds the success-true envelope with an
empty schema (the failure is swallowed inside `get_table_metadata`). -/
theorem show_metadata_parser_error (env : Env) (rid : String) (e : Exc) (sort : Bool)
    (hrid : rid ≠ "") (hfail : DSLService.getTableParser env = Except.error e) :
    DSLService.show_metadata env (PyVal.str rid) sort = J.obj
      [("success", J.b true), ("schema", J.arr []), ("name", J.s rid),
       ("resource_id", J.s rid), ("message", J.s "")] := by
  unfold DSLService.show_metadata DSLService.get_table_metadata
  rw [hfail]
  simp [truthy, hrid, pyToJ]

/-- A metadata request with a non-empty string id, no `sort` key and a
passing access check reaches `show_metadata` with `sort = False`
(the default `"false"` parses to `False`). -/
theorem show_dsl_metadata_default_sort (env : Env) (dd : DataDict) (rid : String)
    (hr : dd.resourceID = some (PyVal.str rid)) (hrid : rid ≠ "")
    (hsort : dd.sort = Option.none)
    (hauth : env.checkAccess (PyVal.str rid) = Except.ok ()) :
    show_dsl_metadata env dd =
      Outcome.ret (DSLService.show_metadata env (PyVal.str rid) false) := by
  unfold show_dsl_metadata
  rw [hr, hsort]
  simp [truthy, hrid, hauth, show ((pyLower "false" == "true") : Bool) = false from rfl]

/-! Claim theorems. -/

/-- Claim C5: `can_view` is a pure boolean function of the resource's stored
fields, true iff the resource has a truthy `datastore_active` flag, or its
url contains `_datastore_only_resource`, or its declared format is
(case-insensitively) one of csv/xls/xlsx/tsv; in particular it is true for a
resource with `datastore_active` true and false for a resource with no
datastore activation, no sentinel in the url, and an unsupported format. -/
theorem spec_C5_can_view :
    (∀ r : Resource, can_view r = canViewSpec r) ∧
    can_view ⟨some (PyVal.bool true), some "http://example.com/data", some "pdf"⟩ = true ∧
    can_view ⟨Option.none, some "http://example.com/data", some "pdf"⟩ = false := by
  refine ⟨?_, rfl, rfl⟩
  intro r
  unfold can_view canViewSpec
  cases hda : truthy (r.datastore_active.getD PyVal.none) <;>
    cases hurl : strContains (r.url.getD "") "_datastore_only_resource" <;>
      simp only [hda, hurl, Bool.false_or, Bool.true_or, Bool.or_true, Bool.or_false,
        if_true, if_false, Bool.or_self, ite_true, ite_false]
  cases hf : r.format with
  | none =>
    simp
    decide
  | some f =>
    by_cases hfe : f = ""
    · subst hfe
      simp
      decide
    · simp [hfe]

/-- Claim C6: a query call whose data dictionary holds a truthy resource
identifier but a missing or empty payload returns the fixed missing-field
envelope for the `payload` field (in a run where the access check passes). -/
theorem spec_C6_query_missing_payload (env : Env) (dd : DataDict)
    (hauth : env.checkAccess (dd.resourceID.getD PyVal.none) = Except.ok ())
    (hrid : truthy (dd.resourceID.getD PyVal.none) = true)
    (hp : truthy (dd.payload.getD PyVal.none) = false) :
    dsl_query_data env dd =
      Outcome.ret (DSLService.create_error_response "payload" "payload field required") := by
  unfold dsl_query_data
  rw [hauth]
  simp [DSLService.query_data, hrid, hp]

/-- Concrete request environment for the C6 witness: configured URL, working
parser with one plain column, working field lookup, permissive access check. -/
def envC6 : Env :=
  { readURL := "postgresql://reader",
    parser := Except.ok ⟨[⟨"alpha", []⟩], fun _ => Except.ok [[("alpha", J.s "1")]]⟩,
    dsSearchFields := Except.ok [⟨"alpha", some "Alpha"⟩],
    checkAccess := fun _ => Except.ok () }

/-- C6 witness request: a resource id but no payload. -/
def ddC6 : DataDict := ⟨some (PyVal.str "res-1"), Option.none, Option.none⟩

/-- Witness for C6 at a concrete request. -/
theorem spec_C6_query_missing_payload_witness :
    envC6.checkAccess (ddC6.resourceID.getD PyVal.none) = Except.ok () ∧
    truthy (ddC6.resourceID.getD PyVal.none) = true ∧
    truthy (ddC6.payload.getD PyVal.none) = false ∧
    dsl_query_data envC6 ddC6 =
      Outcome.ret (DSLService.create_error_response "payload" "payload field required") :=
  ⟨rfl, rfl, rfl, spec_C6_query_missing_payload envC6 ddC6 rfl rfl rfl⟩

/-- Claim C9: the query endpoint runs the host `resource_show` authorization
check on whatever value `resourceID` holds (including `None` when absent)
before any presence validation: a raising check propagates as the outcome,
and a returned envelope implies the check passed. -/
theorem spec_C9_auth_before_validation (env : Env) (dd : DataDict) (e : Exc) (j : J) :
    (env.checkAccess (dd.resourceID.getD PyVal.none) = Except.error e →
      dsl_query_data env dd = Outcome.exn e) ∧
    (dsl_query_data env dd = Outcome.ret j →
      env.checkAccess (dd.resourceID.getD PyVal.none) = Except.ok ()) := by
  constructor
  · intro h
    unfold dsl_query_data
    rw [h]
  · intro h
    exact (dsl_query_data_ret env dd j h).1

/-- Concrete environment for the C9 witness: the access check raises exactly
when handed `None` (an absent `resourceID`). -/
def envC9 : Env :=
  { readURL := "postgresql://reader",
    parser := Except.ok ⟨[], fun _ => Except.ok []⟩,
    dsSearchFields := Except.ok [],
    checkAccess := fun v => match v with
      | PyVal.none => Except.error ⟨ExcKind.otherError, "not authorized"⟩
      | _ => Except.ok () }

/-- C9 witness request: no `resourceID` at all. -/
def ddC9 : DataDict := ⟨Option.none, Option.none, Option.none⟩

/-- Witness for C9: with `resourceID` absent, the raising check makes the
call raise instead of returning the missing-field envelope. -/
theorem spec_C9_auth_before_validation_witness :
    envC9.checkAccess (ddC9.resourceID.getD PyVal.none) =
      Except.error ⟨ExcKind.otherError, "not authorized"⟩ ∧
    dsl_query_data envC9 ddC9 = Outcome.exn ⟨ExcKind.otherError, "not authorized"⟩ :=
  ⟨rfl, (spec_C9_auth_before_validation envC9 ddC9
    ⟨ExcKind.otherError, "not authorized"⟩ J.null).1 rfl⟩

/-- Concrete environment for the C1 counterexample (everything external
succeeds; only the request is missing its resource id). -/
def envC1 : Env :=
  { readURL := "postgresql://reader",
    parser := Except.ok ⟨[⟨"alpha", []⟩], fun _ => Except.ok []⟩,
    dsSearchFields := Except.ok [],
    checkAccess := fun _ => Except.ok () }

/-- C1 counterexample request: `resourceID` absent. -/
def ddC1 : DataDict := ⟨Option.none, Option.none, Option.none⟩

/-- Counterexample to claim C1: with `resourceID` absent, the metadata
endpoint `show_dsl_metadata` does NOT return the fixed missing-field
envelope — it aborts with HTTP 400 (actions.py lines 308-309). -/
theorem spec_C1_cex :
    show_dsl_metadata envC1 ddC1 = Outcome.abort 400 "resourceID field is required" ∧
    show_dsl_metadata envC1 ddC1 ≠
      Outcome.ret (DSLService.create_error_response "resourceID" "field required") := by
  refine ⟨rfl, ?_⟩
  intro h
  rw [show show_dsl_metadata envC1 ddC1 =
    Outcome.abort 400 "resourceID field is required" from rfl] at h
  exact Outcome.noConfusion h

/-- Claim C1 as amended: with `resourceID` absent or falsy, the query
endpoint returns the fixed missing-field envelope (in a run where the access
check returns), while the metadata endpoint instead aborts with a 400 error. -/
theorem spec_C1_amended (env : Env) (dd : DataDict)
    (hauth : env.checkAccess (dd.resourceID.getD PyVal.none) = Except.ok ())
    (hrid : truthy (dd.resourceID.getD PyVal.none) = false) :
    dsl_query_data env dd =
      Outcome.ret (DSLService.create_error_response "resourceID" "field required") ∧
    show_dsl_metadata env dd = Outcome.abort 400 "resourceID field is required" := by
  constructor
  · unfold dsl_query_data
    rw [hauth]
    simp [DSLService.query_data, hrid]
  · unfold show_dsl_metadata
    simp [hrid]

/-- Witness for the amended C1 at the concrete missing-id request. -/
theorem spec_C1_amended_witness :
    envC1.checkAccess (ddC1.resourceID.getD PyVal.none) = Except.ok () ∧
    truthy (ddC1.resourceID.getD PyVal.none) = false ∧
    (dsl_query_data envC1 ddC1 =
      Outcome.ret (DSLService.create_error_response "resourceID" "field required") ∧
     show_dsl_metadata envC1 ddC1 = Outcome.abort 400 "resourceID field is required") :=
  ⟨rfl, rfl, spec_C1_amended envC1 ddC1 rfl rfl⟩

/-- Concrete environment for the C2 counterexample: the datastore read URL is
unset, so the parser factory raises `DatabaseConnectionError` internally. -/
def envC2 : Env :=
  { readURL := "",
    parser := Except.ok ⟨[⟨"alpha", []⟩], fun _ => Except.ok []⟩,
    dsSearchFields := Except.ok [],
    checkAccess := fun _ => Except.ok () }

/-- C2 counterexample request: a non-empty resource identifier. -/
def ddC2 : DataDict := ⟨some (PyVal.str "abc"), Option.none, Option.none⟩

/-- Counterexample to claim C2: a database connection failure occurs
internally (first conjunct), yet the metadata endpoint returns an envelope
with `success: true`, empty schema and empty message — not `success: false`
with the exception message. The failure is swallowed by the blanket `except`
in `get_table_metadata` (actions.py lines 174-176), which returns `[]`. -/
theorem spec_C2_cex :
    DSLService.getTableParser envC2 = Except.error
      ⟨ExcKind.databaseConnectionError,
        "Database connection failed: Database read URL not configured"⟩ ∧
    show_dsl_metadata envC2 ddC2 = Outcome.ret (J.obj
      [("success", J.b true), ("schema", J.arr []), ("name", J.s "abc"),
       ("resource_id", J.s "abc"), ("message", J.s "")]) :=
  ⟨rfl, rfl⟩

/-- Claim C2 as amended: for a metadata call with a non-empty string
resource identifier (default sort, passing access check), an internal
failure of the parser factory is swallowed: the endpoint returns the
`success: true` envelope with an empty schema and empty message, and never
raises the failure to the caller. -/
theorem spec_C2_amended (env : Env) (dd : DataDict) (rid : String) (e : Exc)
    (hr : dd.resourceID = some (PyVal.str rid)) (hrid : rid ≠ "")
    (hsort : dd.sort = Option.none)
    (hauth : env.checkAccess (PyVal.str rid) = Except.ok ())
    (hfail : DSLService.getTableParser env = Except.error e) :
    show_dsl_metadata env dd = Outcome.ret (J.obj
      [("success", J.b true), ("schema", J.arr []), ("name", J.s rid),
       ("resource_id", J.s rid), ("message", J.s "")]) := by
  rw [show_dsl_metadata_default_sort env dd rid hr hrid hsort hauth,
    show_metadata_parser_error env rid e false hrid hfail]

/-- Witness for the amended C2 at the concrete broken-configuration request. -/
theorem spec_C2_amended_witness :
    ddC2.resourceID = some (PyVal.str "abc") ∧ ("abc" : String) ≠ "" ∧
    ddC2.sort = Option.none ∧
    envC2.checkAccess (PyVal.str "abc") = Except.ok () ∧
    DSLService.getTableParser envC2 = Except.error
      ⟨ExcKind.databaseConnectionError,
        "Database connection failed: Database read URL not configured"⟩ ∧
    show_dsl_metadata envC2 ddC2 = Outcome.ret (J.obj
      [("success", J.b true), ("schema", J.arr []), ("name", J.s "abc"),
       ("resource_id", J.s "abc"), ("message", J.s "")]) :=
  ⟨rfl, by decide, rfl, rfl, rfl,
   spec_C2_amended envC2 ddC2 "abc"
     ⟨ExcKind.databaseConnectionError,
       "Database connection failed: Database read URL not configured"⟩
     rfl (by decide) rfl rfl rfl⟩

/-- Concrete environment for the C3 counterexample: the connector/parser
construction fails, raising `DatabaseConnectionError` internally. -/
def envC3 : Env :=
  { readURL := "postgresql://reader",
    parser := Except.error ⟨ExcKind.otherError, "connection refused"⟩,
    dsSearchFields := Except.ok [],
    checkAccess := fun _ => Except.ok () }

/-- C3 counterexample request: a metadata call for a non-empty resource id. -/
def ddC3 : DataDict := ⟨some (PyVal.str "xyz"), Option.none, Option.none⟩

/-- Counterexample to claim C3: a `DatabaseConnectionError` is raised
internally on the metadata path (first conjunct), and it IS caught — but it
is converted into an envelope with `success: true` and an empty schema, not
into a `success: false` envelope as the claim states. -/
theorem spec_C3_cex :
    DSLService.getTableParser envC3 = Except.error
      ⟨ExcKind.databaseConnectionError, "Database connection failed: connection refused"⟩ ∧
    show_dsl_metadata envC3 ddC3 = Outcome.ret (J.obj
      [("success", J.b true), ("schema", J.arr []), ("name", J.s "xyz"),
       ("resource_id", J.s "xyz"), ("message", J.s "")]) ∧
    J.getKey (J.obj
      [("success", J.b true), ("schema", J.arr []), ("name", J.s "xyz"),
       ("resource_id", J.s "xyz"), ("message", J.s "")]) "success" ≠ some (J.b false) := by
  refine ⟨rfl, rfl, ?_⟩
  intro h
  exact Bool.noConfusion (J.b.inj (Option.some.inj h))

/-- Claim C3 as amended: both custom error kinds are caught before the
endpoint boundary and never propagate; on the query path the caught failure
becomes a `success: false` envelope carrying its message, while on the
metadata path a `DatabaseConnectionError` is swallowed and the endpoint
returns a `success: true` envelope with an empty schema. -/
theorem spec_C3_amended (env : Env) (dd : DataDict) (e : Exc) (rid : String) :
    (env.checkAccess (dd.resourceID.getD PyVal.none) = Except.ok () →
     truthy (dd.resourceID.getD PyVal.none) = true →
     truthy (dd.payload.getD PyVal.none) = true →
     DSLService.get_data_from_payload env (dd.payload.getD PyVal.none) = Except.error e →
     dsl_query_data env dd = Outcome.ret (J.obj
       [("success", J.b false), ("data", J.null), ("message", J.s e.msg)])) ∧
    (dd.resourceID = some (PyVal.str rid) → rid ≠ "" → dd.sort = Option.none →
     env.checkAccess (PyVal.str rid) = Except.ok () →
     DSLService.getTableParser env = Except.error e →
     show_dsl_metadata env dd = Outcome.ret (J.obj
       [("success", J.b true), ("schema", J.arr []), ("name", J.s rid),
        ("resource_id", J.s rid), ("message", J.s "")])) := by
  constructor
  · intro hauth hrid hp hgd
    have hkind := get_data_from_payload_error_kind env (dd.payload.getD PyVal.none) e hgd
    unfold dsl_query_data
    rw [hauth]
    simp [DSLService.query_data, hrid, hp, hgd, hkind]
  · intro hr hrid hsort hauth hfail
    rw [show_dsl_metadata_default_sort env dd rid hr hrid hsort hauth,
      show_metadata_parser_error env rid e false hrid hfail]

/-- Concrete environment for the C3 witness: the external query call fails,
so `get_data_from_payload` raises `DSLQueryError`. -/
def envC3w : Env :=
  { readURL := "postgresql://reader",
    parser := Except.ok ⟨[⟨"alpha", []⟩],
      fun _ => Except.error ⟨ExcKind.otherError, "bad column"⟩⟩,
    dsSearchFields := Except.ok [],
    checkAccess := fun _ => Except.ok () }

/-- C3 witness request: resource id and a non-empty payload. -/
def ddC3w : DataDict :=
  ⟨some (PyVal.str "res"), Option.none, some (PyVal.dict [("sql", J.s "q")])⟩

/-- Witness for the amended C3: the internally raised `DSLQueryError` is
returned as a `success: false` envelope with its message. -/
theorem spec_C3_amended_witness :
    DSLService.get_data_from_payload envC3w (ddC3w.payload.getD PyVal.none) =
      Except.error ⟨ExcKind.dslQueryError, "Query execution failed: bad column"⟩ ∧
    dsl_query_data envC3w ddC3w = Outcome.ret (J.obj
      [("success", J.b false), ("data", J.null),
       ("message", J.s "Query execution failed: bad column")]) :=
  ⟨rfl, (spec_C3_amended envC3w ddC3w
    ⟨ExcKind.dslQueryError, "Query execution failed: bad column"⟩ "res").1
    rfl rfl rfl rfl⟩

/-- Concrete environment for the C7 counterexample (external calls all
succeed; the request is missing its resource id). -/
def envC7 : Env :=
  { readURL := "postgresql://reader",
    parser := Except.ok ⟨[⟨"alpha", []⟩], fun _ => Except.ok []⟩,
    dsSearchFields := Except.ok [],
    checkAccess := fun _ => Except.ok () }

/-- C7 counterexample request: no `resourceID`. -/
def ddC7 : DataDict := ⟨Option.none, Option.none, Option.none⟩

/-- Counterexample to claim C7: the query endpoint returns the fixed
missing-field envelope, and that envelope has NO `success` key at all
(`_create_error_response` builds only a `detail` entry). -/
theorem spec_C7_cex :
    dsl_query_data envC7 ddC7 =
      Outcome.ret (DSLService.create_error_response "resourceID" "field required") ∧
    J.getKey (DSLService.create_error_response "resourceID" "field required") "success" =
      Option.none :=
  ⟨rfl, rfl⟩

/-- Claim C7 as amended: every envelope returned by either endpoint is the
fixed missing-field validation envelope (which has no `success` key) or an
envelope containing a boolean `success` key. -/
theorem spec_C7_amended (env : Env) (dd : DataDict) (j : J)
    (h : show_dsl_metadata env dd = Outcome.ret j ∨ dsl_query_data env dd = Outcome.ret j) :
    (∃ f m, j = DSLService.create_error_response f m) ∨
    (∃ b : Bool, J.getKey j "success" = some (J.b b)) := by
  rcases h with h | h
  · rcases show_dsl_metadata_ret env dd j h with ⟨ht, b, hj⟩
    subst hj
    unfold DSLService.show_metadata
    rw [ht]
    exact Or.inr ⟨true, rfl⟩
  · rcases dsl_query_data_ret env dd j h with ⟨hca, hj⟩
    subst hj
    unfold DSLService.query_data
    split
    · exact Or.inl ⟨_, _, rfl⟩
    · split
      · exact Or.inl ⟨_, _, rfl⟩
      · split
        · exact Or.inr ⟨true, rfl⟩
        · split
          · exact Or.inr ⟨false, rfl⟩
          · exact Or.inr ⟨false, rfl⟩

/-- Concrete environment for the C7 witness: a successful query run. -/
def envC7w : Env :=
  { readURL := "postgresql://reader",
    parser := Except.ok ⟨[⟨"alpha", []⟩],
      fun _ => Except.ok [[("alpha", J.s "1"), ("_id", J.s "7")]]⟩,
    dsSearchFields := Except.ok [],
    checkAccess := fun _ => Except.ok () }

/-- C7 witness request: resource id and non-empty payload. -/
def ddC7w : DataDict :=
  ⟨some (PyVal.str "res"), Option.none, some (PyVal.dict [("sql", J.s "q")])⟩

/-- The envelope the C7 witness run returns. -/
def jC7w : J :=
  DSLService.query_data envC7w (PyVal.str "res") (PyVal.dict [("sql", J.s "q")])

/-- Witness for the amended C7: a returned envelope indeed carries a boolean
`success` key (or is the validation envelope). -/
theorem spec_C7_amended_witness :
    (show_dsl_metadata envC7w ddC7w = Outcome.ret jC7w ∨
     dsl_query_data envC7w ddC7w = Outcome.ret jC7w) ∧
    ((∃ f m, jC7w = DSLService.create_error_response f m) ∨
     (∃ b : Bool, J.getKey jC7w "success" = some (J.b b))) :=
  ⟨Or.inr rfl, spec_C7_amended envC7w ddC7w jC7w (Or.inr rfl)⟩

/-- Concrete environment for the C8 counterexample: a fully working backend. -/
def envC8 : Env :=
  { readURL := "postgresql://reader",
    parser := Except.ok ⟨[⟨"beta", []⟩, ⟨"alpha", []⟩], fun _ => Except.ok []⟩,
    dsSearchFields := Except.ok [⟨"alpha", some "Alpha"⟩, ⟨"beta", some "Beta"⟩],
    checkAccess := fun _ => Except.ok () }

/-- C8 counterexample request: `sort` supplied as the boolean value true. -/
def ddC8 : DataDict := ⟨some (PyVal.str "r"), some (PyVal.bool true), Option.none⟩

/-- Counterexample to claim C8: supplying the boolean value true for `sort`
does not sort the fields — `data_dict.get("sort", "false").lower()` is called
on a boolean, so an `AttributeError` propagates instead of an envelope. -/
theorem spec_C8_cex :
    show_dsl_metadata envC8 ddC8 =
      Outcome.exn ⟨ExcKind.attributeError, "object has no attribute lower"⟩ ∧
    show_dsl_metadata envC8 ddC8 ≠
      Outcome.ret (DSLService.show_metadata envC8 (PyVal.str "r") true) := by
  refine ⟨rfl, ?_⟩
  intro h
  rw [show show_dsl_metadata envC8 ddC8 =
    Outcome.exn ⟨ExcKind.attributeError, "object has no attribute lower"⟩ from rfl] at h
  exact Outcome.noConfusion h

/-- Claim C8 as amended: the metadata endpoint's `sort` flag is an optional
STRING defaulting to `"false"`: omitting it yields the unsorted parser-order
fields, the string `"true"` (case-insensitively) yields the fields sorted by
name, and supplying the boolean value true raises an `AttributeError`
instead of sorting. -/
theorem spec_C8_amended (env : Env) (dd : DataDict) (rid : String)
    (hr : dd.resourceID = some (PyVal.str rid)) (hrid : rid ≠ "")
    (hauth : env.checkAccess (PyVal.str rid) = Except.ok ()) :
    (dd.sort = Option.none →
      show_dsl_metadata env dd =
        Outcome.ret (DSLService.show_metadata env (PyVal.str rid) false)) ∧
    (dd.sort = some (PyVal.str "true") →
      show_dsl_metadata env dd =
        Outcome.ret (DSLService.show_metadata env (PyVal.str rid) true)) ∧
    (dd.sort = some (PyVal.bool true) →
      show_dsl_metadata env dd =
        Outcome.exn ⟨ExcKind.attributeError, "object has no attribute lower"⟩) ∧
    (∀ env2 : Env, DSLService.get_table_metadata env2 true =
      sortedByName (DSLService.get_table_metadata env2 false)) := by
  refine ⟨?_, ?_, ?_, ?_⟩
  · intro hsort
    exact show_dsl_metadata_default_sort env dd rid hr hrid hsort hauth
  · intro hsort
    unfold show_dsl_metadata
    rw [hr, hsort]
    simp [truthy, hrid, hauth, show ((pyLower "true" == "true") : Bool) = true from rfl]
  · intro hsort
    unfold show_dsl_metadata
    rw [hr, hsort]
    simp [truthy, hrid, hauth]
  · intro env2
    cases hp : DSLService.getTableParser env2 <;>
      simp [DSLService.get_table_metadata, hp, sortedByName]

/-- C8 witness request: `sort` omitted. -/
def ddC8w : DataDict := ⟨some (PyVal.str "r"), Option.none, Option.none⟩

/-- Witness for the amended C8: sort omitted gives the unsorted envelope, and
sorting with the flag equals the stable sort of the unsorted fields. -/
theorem spec_C8_amended_witness :
    ("r" : String) ≠ "" ∧
    show_dsl_metadata envC8 ddC8w =
      Outcome.ret (DSLService.show_metadata envC8 (PyVal.str "r") false) ∧
    DSLService.get_table_metadata envC8 true =
      sortedByName (DSLService.get_table_metadata envC8 false) :=
  ⟨by decide,
   (spec_C8_amended envC8 ddC8w "r" rfl (by decide) rfl).1 rfl,
   (spec_C8_amended envC8 ddC8w "r" rfl (by decide) rfl).2.2.2 envC8⟩

/-- Rows that `get_data_from_payload` returns successfully have been filtered
of every excluded column key. -/
theorem get_data_from_payload_ok_filtered (env : Env) (p : PyVal)
    (rows : List (List (String × J)))
    (h : DSLService.get_data_from_payload env p = Except.ok rows) :
    ∀ row ∈ rows, ∀ k ∈ COLUMNS_TO_EXCLUDE, lookupKey row k = Option.none := by
  unfold DSLService.get_data_from_payload at h
  split at h
  · exact Except.noConfusion h
  · split at h
    · exact Except.noConfusion h
    · rename_i rows1 hq
      have hrows := Except.ok.inj h
      intro row hrow k hk
      rw [← hrows] at hrow
      rcases List.mem_map.mp hrow with ⟨row1, _, hre⟩
      rw [← hre]
      exact lookupKey_filter_none row1 k _ (by intro kv hkv; simp [hkv, hk])

/-- Claim C4: no field record returned by the metadata endpoint has a `fid`
in the exclusion set, and no row returned by the query endpoint contains any
of the keys `_id`, `id`, `_full_text`. -/
theorem spec_C4_exclusion (env : Env) (dd : DataDict) (j : J) :
    (show_dsl_metadata env dd = Outcome.ret j →
      ∀ fs : List J, J.getKey j "schema" = some (J.arr fs) →
      ∀ f ∈ fs, ∀ nm : String, J.getKey f "fid" = some (J.s nm) →
        nm ∉ COLUMNS_TO_EXCLUDE) ∧
    (dsl_query_data env dd = Outcome.ret j →
      ∀ rows : List J, J.getKey j "data" = some (J.arr rows) →
      ∀ row ∈ rows, J.getKey row "_id" = Option.none ∧
        J.getKey row "id" = Option.none ∧ J.getKey row "_full_text" = Option.none) := by
  constructor
  · intro h fs hsch f hf nm hfid
    rcases show_dsl_metadata_ret env dd j h with ⟨ht, b, hj⟩
    subst hj
    unfold DSLService.show_metadata at hsch
    rw [ht] at hsch
    have hsch2 : some (J.arr (DSLService.get_table_metadata env b)) = some (J.arr fs) := hsch
    have hfs : fs = DSLService.get_table_metadata env b :=
      (J.arr.inj (Option.some.inj hsch2)).symm
    rw [hfs] at hf
    rcases mem_get_table_metadata env b f hf with ⟨rf, hfe, hnm⟩
    rw [hfe, getKey_metaField_fid] at hfid
    have hnmE : rf.fid = nm := J.s.inj (Option.some.inj hfid)
    rw [← hnmE]
    exact hnm
  · intro h rows hdata row hrow
    rcases dsl_query_data_ret env dd j h with ⟨hca, hj⟩
    subst hj
    unfold DSLService.query_data at hdata
    split at hdata
    · rw [show J.getKey (DSLService.create_error_response "resourceID" "field required")
        "data" = Option.none from rfl] at hdata
      exact Option.noConfusion hdata
    · split at hdata
      · rw [show J.getKey (DSLService.create_error_response "payload" "payload field required")
          "data" = Option.none from rfl] at hdata
        exact Option.noConfusion hdata
      · split at hdata
        · rename_i rows0 hgd
          have hdata2 : some (J.arr (rows0.map J.obj)) = some (J.arr rows) := hdata
          have hre : rows = rows0.map J.obj := (J.arr.inj (Option.some.inj hdata2)).symm
          subst hre
          rcases List.mem_map.mp hrow with ⟨row0, hrow0, hrE⟩
          subst hrE
          have hl := get_data_from_payload_ok_filtered env _ rows0 hgd row0 hrow0
          exact ⟨hl "_id" (by simp [COLUMNS_TO_EXCLUDE]),
            hl "id" (by simp [COLUMNS_TO_EXCLUDE]),
            hl "_full_text" (by simp [COLUMNS_TO_EXCLUDE])⟩
        · split at hdata
          · have h2 : some J.null = some (J.arr rows) := hdata
            exact J.noConfusion (Option.some.inj h2)
          · have h2 : some J.null = some (J.arr rows) := hdata
            exact J.noConfusion (Option.some.inj h2)

/-- Concrete environment for the C4 witness: the parser reports a plain
column and an internal `_id` column; the query returns one row holding both. -/
def envC4 : Env :=
  { readURL := "postgresql://reader",
    parser := Except.ok ⟨[⟨"alpha", []⟩, ⟨"_id", []⟩],
      fun _ => Except.ok [[("alpha", J.s "1"), ("_id", J.s "9")]]⟩,
    dsSearchFields := Except.ok [⟨"alpha", some "Alpha"⟩],
    checkAccess := fun _ => Except.ok () }

/-- C4 witness metadata request. -/
def ddC4m : DataDict := ⟨some (PyVal.str "r"), Option.none, Option.none⟩

/-- C4 witness query request. -/
def ddC4q : DataDict :=
  ⟨some (PyVal.str "r"), Option.none, some (PyVal.dict [("sql", J.s "q")])⟩

/-- The metadata envelope of the C4 witness run. -/
def jC4m : J := DSLService.show_metadata envC4 (PyVal.str "r") false

/-- The query envelope of the C4 witness run. -/
def jC4q : J :=
  DSLService.query_data envC4 (PyVal.str "r") (PyVal.dict [("sql", J.s "q")])

/-- The one schema field of the C4 witness run. -/
def fC4 : J := metaField (DSLService.get_name_title_map envC4) ⟨"alpha", []⟩

/-- Witness for C4 at concrete requests: the surviving field is `alpha`
(not excluded), and the returned row has lost its `_id` key. -/
theorem spec_C4_exclusion_witness :
    (show_dsl_metadata envC4 ddC4m = Outcome.ret jC4m ∧
     ("alpha" : String) ∉ COLUMNS_TO_EXCLUDE) ∧
    (dsl_query_data envC4 ddC4q = Outcome.ret jC4q ∧
     (J.getKey (J.obj [("alpha", J.s "1")]) "_id" = Option.none ∧
      J.getKey (J.obj [("alpha", J.s "1")]) "id" = Option.none ∧
      J.getKey (J.obj [("alpha", J.s "1")]) "_full_text" = Option.none)) :=
  ⟨⟨rfl, (spec_C4_exclusion envC4 ddC4m jC4m).1 rfl
      (DSLService.get_table_metadata envC4 false) rfl fC4 (List.mem_singleton.mpr rfl)
      "alpha" rfl⟩,
   ⟨rfl, (spec_C4_exclusion envC4 ddC4q jC4q).2 rfl
      [J.obj [("alpha", J.s "1")]] rfl (J.obj [("alpha", J.s "1")])
      (List.mem_singleton.mpr rfl)⟩⟩

/-- Claim C10: each schema field's `name` is the `datastore_search` label for
its `fid` when one exists (given distinct field ids) and the `fid` itself
otherwise; when the `datastore_search` call raises, the label map is empty,
every name falls back to the `fid`, and the metadata endpoint still returns
a success envelope. -/
theorem spec_C10_labels (env : Env) (e : Exc) (fs : List DSField) (f : DSField)
    (rf : RawField) (dd : DataDict) (rid : String) :
    (env.dsSearchFields = Except.error e →
      (∀ x, DSLService.get_name_title_map env x = Option.none) ∧
      J.getKey (metaField (DSLService.get_name_title_map env) rf) "name" =
        some (J.s rf.fid)) ∧
    (env.dsSearchFields = Except.ok fs → (fs.map DSField.id).Nodup → f ∈ fs →
      f.id ∉ COLUMNS_TO_EXCLUDE →
      DSLService.get_name_title_map env f.id = some (f.label.getD f.id)) ∧
    (J.getKey (metaField (DSLService.get_name_title_map env) rf) "name" =
      some (J.s (((DSLService.get_name_title_map env) rf.fid).getD rf.fid))) ∧
    (dd.resourceID = some (PyVal.str rid) → rid ≠ "" → dd.sort = Option.none →
      env.checkAccess (PyVal.str rid) = Except.ok () →
      env.dsSearchFields = Except.error e →
      ∃ jj : J, show_dsl_metadata env dd = Outcome.ret jj ∧
        J.getKey jj "success" = some (J.b true)) := by
  refine ⟨?_, ?_, ?_, ?_⟩
  · intro he
    refine ⟨get_name_title_map_error env e he, ?_⟩
    rw [getKey_metaField_name, get_name_title_map_error env e he rf.fid]
    rfl
  · intro hok hnd hmem hex
    unfold DSLService.get_name_title_map
    rw [hok]
    exact nameMap_foldl_mem fs _ f hnd hmem hex
  · exact getKey_metaField_name _ rf
  · intro hr hrid hsort hauth he
    refine ⟨DSLService.show_metadata env (PyVal.str rid) false,
      show_dsl_metadata_default_sort env dd rid hr hrid hsort hauth, ?_⟩
    simp [DSLService.show_metadata, truthy, hrid, J.getKey, lookupKey]

/-- Concrete environment for the C10 witness, failing `datastore_search`. -/
def envC10e : Env :=
  { readURL := "postgresql://reader",
    parser := Except.ok ⟨[⟨"alpha", []⟩], fun _ => Except.ok []⟩,
    dsSearchFields := Except.error ⟨ExcKind.otherError, "search down"⟩,
    checkAccess := fun _ => Except.ok () }

/-- Concrete environment for the C10 witness, working `datastore_search`
with a labelled field. -/
def envC10ok : Env :=
  { readURL := "postgresql://reader",
    parser := Except.ok ⟨[⟨"alpha", []⟩], fun _ => Except.ok []⟩,
    dsSearchFields := Except.ok [⟨"alpha", some "Alpha"⟩],
    checkAccess := fun _ => Except.ok () }

/-- C10 witness request. -/
def ddC10 : DataDict := ⟨some (PyVal.str "r"), Option.none, Option.none⟩

/-- Witness for C10 at concrete requests: empty map and success envelope
under a failing lookup, and the label resolved under a working lookup. -/
theorem spec_C10_labels_witness :
    DSLService.get_name_title_map envC10e "alpha" = Option.none ∧
    DSLService.get_name_title_map envC10ok "alpha" = some "Alpha" ∧
    (∃ jj : J, show_dsl_metadata envC10e ddC10 = Outcome.ret jj ∧
      J.getKey jj "success" = some (J.b true)) :=
  ⟨((spec_C10_labels envC10e ⟨ExcKind.otherError, "search down"⟩ []
      ⟨"alpha", some "Alpha"⟩ ⟨"alpha", []⟩ ddC10 "r").1 rfl).1 "alpha",
   (spec_C10_labels envC10ok ⟨ExcKind.otherError, "search down"⟩
      [⟨"alpha", some "Alpha"⟩] ⟨"alpha", some "Alpha"⟩ ⟨"alpha", []⟩ ddC10 "r").2.1
      rfl (by simp) (List.mem_singleton.mpr rfl) (by decide),
   (spec_C10_labels envC10e ⟨ExcKind.otherError, "search down"⟩ []
      ⟨"alpha", some "Alpha"⟩ ⟨"alpha", []⟩ ddC10 "r").2.2.2
      rfl (by decide) rfl rfl rfl⟩
